import Mathlib

/-!
Shallow embedding of `src/dominos/dominos.py` — a stateful HTTP client for
an online ordering site.  Network I/O is modelled by passing each operation
the outcome the transport layer would produce (`HttpOutcome`), and every
operation additionally returns the list of HTTP requests it issued, so that
"performs no network call" is a statable property.  Python exceptions are
modelled with `Except PyError`; Python list indexing (including negative
indices) with `pyIdx`/`pyGet`.  The dynamic attribute-bag objects
(`Store`, `Item`, `Basket`) are modelled as records holding exactly the
fields the code reads.
-/

namespace Dominos

/-- Python exceptions that the code under `src/` can raise or catch. -/
inductive PyError where
  | IndexError
  | KeyError
  | AttributeError
  | NameError
  | ValueError
  | ConnectionError
  deriving DecidableEq, Repr

/-- Outcome of one HTTP round trip: either the transport layer fails
(`requests` raises), or a response arrives with a status code and a body
that either parses (`some β`, the endpoint-specific parsed JSON) or does
not (`none`: `r.json()` raises `ValueError`). -/
inductive HttpOutcome (β : Type) where
  | transportError
  | response (status : Nat) (body : Option β)
  deriving DecidableEq, Repr

/-- Python list index resolution: `xs[i]` accepts `-len ≤ i < len`,
negative indices counting from the end. Returns the resolved
non-negative position. -/
def pyIdx (len : Nat) (i : Int) : Option Nat :=
  if 0 ≤ i ∧ i < (len : Int) then some i.toNat
  else if -(len : Int) ≤ i ∧ i < 0 then some ((len : Int) + i).toNat
  else none

/-- Python `xs[i]`: element access with Python index semantics,
`IndexError` out of range. -/
def pyGet (xs : List α) (i : Int) : Except PyError α :=
  match pyIdx xs.length i with
  | some j =>
      if h2 : j < xs.length then Except.ok (xs.get ⟨j, h2⟩)
      else Except.error PyError.IndexError
  | none => Except.error PyError.IndexError

/-- A store record from the store search JSON; the code reads `Id` and
`Name`. -/
structure Store where
  Id : Int
  Name : String
  deriving DecidableEq, Repr

/-- A product SKU (size variant) dictionary; the code reads
`ProductSkuId` and `Ingredients`. -/
structure Sku where
  ProductSkuId : Int
  Ingredients : List Int
  deriving DecidableEq, Repr

/-- A product dictionary from the catalog JSON; the code reads `Type`,
`ProductId`, `Title` and `ProductSkus`. -/
structure Product where
  ProductId : Int
  «Type» : String
  Title : String
  ProductSkus : List Sku
  deriving DecidableEq, Repr

/-- `Item(**p)` built from a product dictionary after `p['idx'] = idx`:
the product's fields plus the assigned running index. -/
structure Item where
  prod : Product
  idx : Nat
  deriving DecidableEq, Repr

/-- Attribute access on a menu `Item` forwards to the wrapped product
dictionary (`self.__dict__.update(entries)`). -/
def Item.type (it : Item) : String := it.prod.«Type»

def Item.ProductId (it : Item) : Int := it.prod.ProductId

def Item.ProductSkus (it : Item) : List Sku := it.prod.ProductSkus

/-- A basket line-item dictionary; the code reads `BasketItemId` and
`Title`. -/
structure BItem where
  BasketItemId : Int
  Title : String
  deriving DecidableEq, Repr

/-- `Basket(**entries)`: opaque bag mirroring the server basket; the code
only ever reads `Items`. -/
structure Basket where
  Items : List BItem
  deriving DecidableEq, Repr

/-- A subcategory object of the catalog JSON: its `Type` (used as the
menu category) and its `Products`. -/
structure Subcategory where
  «Type» : String
  Products : List Product
  deriving DecidableEq, Repr

/-- A top-level category-group object of the catalog JSON. -/
structure CategoryGroup where
  Subcategories : List Subcategory
  deriving DecidableEq, Repr

/-- `context['sessionContext']` of the store-context JSON; `none` on a
field models a missing key (`KeyError` on access). -/
structure SessionContext where
  menuVersion : Option String
  deriving DecidableEq, Repr

/-- Parsed store-context JSON body. -/
structure ContextBody where
  sessionContext : Option SessionContext
  deriving DecidableEq, Repr

/-- The JSON body POSTed by `add_item` for a Pizza. -/
structure PizzaPayload where
  stepId : Nat
  quantity : Nat
  sizeId : Int
  productId : Int
  ingredients : List Int
  productIdHalfTwo : Int
  ingredientsHalfTwo : List Int
  recipeReferrer : Int
  deriving DecidableEq, Repr

/-- The JSON body POSTed by `add_item` for a Side. -/
structure ProductPayload where
  ProductSkuId : Int
  Quantity : Nat
  ComplimentaryItems : List Int
  deriving DecidableEq, Repr

/-- An HTTP request issued by the client, identified by endpoint and the
parameters the code puts in it. -/
inductive Request where
  | sessionExpire
  | storeSearch (term : String)
  | journeyInitialize (storeId : Int) (postcode : String)
  | getStoreContext (epoch : Nat)
  | getBasket
  | getStoreCatalog (menuVersion : String) (storeId : Int)
  | addPizza (payload : PizzaPayload)
  | addProduct (payload : ProductPayload)
  | removeBasketItem (basketItemId : Int) (wizardItemDelete : Bool)
  deriving DecidableEq, Repr

/-- `Menu`: container mapping category name to the items added under it,
as an insertion-ordered association list. -/
structure Menu where
  items : List (String × List Item)
  deriving DecidableEq, Repr

/-- `Menu()`: fresh empty menu. -/
def Menu.empty : Menu := ⟨[]⟩

/-- Python dictionary lookup on the association list representing
`self.items`: the value stored under an equal key, if any. -/
def dictLookup (l : List (String × List Item)) (c : String) :
    Option (List Item) :=
  match l with
  | [] => none
  | (k, v) :: t => if k = c then some v else dictLookup t c

/-- `self.items.setdefault(category, []); self.items[category].append(item)`. -/
def Menu.addItem (m : Menu) (category : String) (item : Item) : Menu :=
  if m.items.any (fun q => decide (q.1 = category)) then
    ⟨m.items.map (fun q =>
      if q.1 = category then (q.1, q.2 ++ [item]) else q)⟩
  else
    ⟨m.items ++ [(category, [item])]⟩

/-- `itemsInCategory`: dictionary lookup with the `try/except` returning
`[]` when the category is absent. -/
def Menu.itemsInCategory (m : Menu) (category : String) : List Item :=
  match dictLookup m.items category with
  | some l => l
  | none => []

/-- The mutable state of a `Dominos` client instance: the cookie jar of
`self.sess` (opaque cookies), the cached store list, the menu version
token, the cached menu, and the cached basket (`none` until first set). -/
structure Client where
  sess : List (String × String)
  stores : List Store
  menu_version : Option String
  menu : Menu
  basket : Option Basket
  deriving DecidableEq, Repr

/-- `if not self.menu_version:` — Python falsiness of the menu version. -/
def menuVersionFalsy : Option String → Bool
  | none => true
  | some v => v == ""

/-- `reset_session`: GET `/Home/SessionExpire`, then replace `self.sess`
with a fresh session (empty cookie jar).  A transport failure of the GET
raises before the jar is replaced. -/
def reset_session (s : Client) (o : HttpOutcome Unit) :
    Except PyError Unit × Client × List Request :=
  let req := Request.sessionExpire
  match o with
  | HttpOutcome.transportError =>
      (Except.error PyError.ConnectionError, s, [req])
  | HttpOutcome.response _ _ =>
      (Except.ok (), { s with sess := [] }, [req])

/-- `search_stores`: clear the cached store list, GET the search endpoint,
parse the JSON array and store it.  Neither transport nor parse errors
are caught. -/
def search_stores (s : Client) (term : String) (o : HttpOutcome (List Store)) :
    Except PyError (List Store) × Client × List Request :=
  let s1 : Client := { s with stores := [] }
  let req := Request.storeSearch term
  match o with
  | HttpOutcome.transportError =>
      (Except.error PyError.ConnectionError, s1, [req])
  | HttpOutcome.response _ body =>
      match body with
      | none => (Except.error PyError.ValueError, s1, [req])
      | some results =>
          let s2 : Client := { s1 with stores := results }
          (Except.ok s2.stores, s2, [req])

/-- `select_store`: `return self.stores[idx]` — pure indexing, no request
issued. -/
def select_store (s : Client) (idx : Int) :
    Except PyError Store × List Request :=
  (pyGet s.stores idx, [])

/-- `get_cookie`: GET `Journey/Initialize` with store id and postcode;
response ignored (a transport failure raises). -/
def get_cookie (s : Client) (store : Store) (postcode : String)
    (o : HttpOutcome Unit) : Except PyError Unit × Client × List Request :=
  let req := Request.journeyInitialize store.Id postcode
  match o with
  | HttpOutcome.transportError =>
      (Except.error PyError.ConnectionError, s, [req])
  | HttpOutcome.response _ _ => (Except.ok (), s, [req])

/-- `get_store_context`: GET the context endpoint (cache-busted with the
current epoch).  `r.json()` is wrapped in `try/except` returning `False`;
the subsequent `context['sessionContext']['menuVersion']` access is not,
so a missing key raises `KeyError`. -/
def get_store_context (s : Client) (epoch : Nat)
    (o : HttpOutcome ContextBody) :
    Except PyError Bool × Client × List Request :=
  let req := Request.getStoreContext epoch
  match o with
  | HttpOutcome.transportError =>
      (Except.error PyError.ConnectionError, s, [req])
  | HttpOutcome.response _ body =>
      match body with
      | none => (Except.ok false, s, [req])
      | some context =>
          match context.sessionContext with
          | none => (Except.error PyError.KeyError, s, [req])
          | some sc =>
              match sc.menuVersion with
              | none => (Except.error PyError.KeyError, s, [req])
              | some v =>
                  (Except.ok true, { s with menu_version := some v }, [req])

/-- `get_basket`: GET the basket endpoint; `Basket(**r.json())` wrapped in
`try/except` returning `False`. -/
def get_basket (s : Client) (o : HttpOutcome Basket) :
    Except PyError Bool × Client × List Request :=
  let req := Request.getBasket
  match o with
  | HttpOutcome.transportError =>
      (Except.error PyError.ConnectionError, s, [req])
  | HttpOutcome.response _ body =>
      match body with
      | none => (Except.ok false, s, [req])
      | some b => (Except.ok true, { s with basket := some b }, [req])

/-- The catalog flattened in response order into (subcategory `Type`,
product) pairs: category group, then subcategory, then product. -/
def flattenCatalog (groups : List CategoryGroup) : List (String × Product) :=
  groups.flatMap fun g =>
    g.Subcategories.flatMap fun sc =>
      sc.Products.map fun p => (sc.«Type», p)

/-- The nested `for` loop of `get_menu`: walk the flattened catalog with
the running counter `idx`, set `p['idx'] = idx`, add to the menu, and
increment. -/
def get_menu_loop (m : Menu) (idx : Nat) :
    List (String × Product) → Menu × Nat
  | [] => (m, idx)
  | (c, p) :: rest =>
      get_menu_loop (m.addItem c { prod := p, idx := idx }) (idx + 1) rest

/-- The (category, wrapped item) pairs `get_menu_loop` adds, in flatten
order, with the running index each product receives. -/
def enumItemsFrom (idx : Nat) : List (String × Product) → List (String × Item)
  | [] => []
  | (c, p) :: rest => (c, { prod := p, idx := idx }) :: enumItemsFrom (idx + 1) rest

/-- `get_menu`: replace `self.menu` with a fresh `Menu()`, fail fast with
`None` when `menu_version` is falsy, otherwise GET the catalog (status
is never checked; `r.json()` is not wrapped, so a parse failure raises)
and populate the menu. -/
def get_menu (s : Client) (store : Store)
    (o : HttpOutcome (List CategoryGroup)) :
    Except PyError (Option Menu) × Client × List Request :=
  let s1 : Client := { s with menu := Menu.empty }
  if menuVersionFalsy s1.menu_version then
    (Except.ok none, s1, [])
  else
    match s1.menu_version with
    | none => (Except.ok none, s1, [])
    | some v =>
        let req := Request.getStoreCatalog v store.Id
        match o with
        | HttpOutcome.transportError =>
            (Except.error PyError.ConnectionError, s1, [req])
        | HttpOutcome.response _ body =>
            match body with
            | none => (Except.error PyError.ValueError, s1, [req])
            | some groups =>
                let menu := (get_menu_loop Menu.empty 0
                  (flattenCatalog groups)).1
                (Except.ok (some menu), { s1 with menu := menu }, [req])

/-- The payload-building phase of `add_item`, dispatching on `item.Type`.
For a Pizza, `ingredients = item.ProductSkus[size_idx]['Ingredients']`
aliases the item's own list and `ingredients += [42, 36]` extends it in
place, so the item passed in is mutated; the (possibly mutated) `Item`
is returned next to the request.  For an unhandled category `payload`
stays unbound and `json.dumps(payload)` raises `NameError` before any
request. -/
def add_item_prepare (item : Item) (size_idx : Int) :
    Except PyError (Request × Item) :=
  if item.type == "Pizza" then
    match pyIdx item.ProductSkus.length size_idx with
    | none => Except.error PyError.IndexError
    | some j =>
        if h : j < item.ProductSkus.length then
          let sku := item.ProductSkus.get ⟨j, h⟩
          let ingredients := sku.Ingredients ++ [42, 36]
          let item2 : Item := { item with prod := { item.prod with
            ProductSkus := item.ProductSkus.set j
              { sku with Ingredients := ingredients } } }
          Except.ok (Request.addPizza
            { stepId := 0
              quantity := 1
              sizeId := size_idx
              productId := item.ProductId
              ingredients := ingredients
              productIdHalfTwo := 0
              ingredientsHalfTwo := []
              recipeReferrer := 0 }, item2)
        else Except.error PyError.IndexError
  else if item.type == "Side" then
    match pyGet item.ProductSkus size_idx with
    | Except.error e => Except.error e
    | Except.ok sku =>
        Except.ok (Request.addProduct
          { ProductSkuId := sku.ProductSkuId
            Quantity := 1
            ComplimentaryItems := [] }, item)
  else
    Except.error PyError.NameError

/-- The POST phase of `add_item`: issue the prepared request, check the
status, and parse the response into the new cached basket. -/
def add_item_post (s : Client) (req : Request) (item2 : Item)
    (o : HttpOutcome Basket) :
    Except PyError Bool × Client × List Request × Item :=
  match o with
  | HttpOutcome.transportError =>
      (Except.error PyError.ConnectionError, s, [req], item2)
  | HttpOutcome.response status body =>
      if status ≠ 200 then (Except.ok false, s, [req], item2)
      else
        match body with
        | none => (Except.ok false, s, [req], item2)
        | some b =>
            (Except.ok true, { s with basket := some b }, [req], item2)

/-- `add_item`: build the payload (mutating the item for a Pizza), POST
it, and on HTTP 200 with parseable JSON replace the cached basket and
return `True`; otherwise return `False` without touching the basket. -/
def add_item (s : Client) (item : Item) (size_idx : Int)
    (o : HttpOutcome Basket) :
    Except PyError Bool × Client × List Request × Item :=
  match add_item_prepare item size_idx with
  | Except.error e => (Except.error e, s, [], item)
  | Except.ok (req, item2) => add_item_post s req item2 o

/-- `remove_item`: `self.basket.Items[basket_item_idx]` (an unset basket
raises `AttributeError`, a bad index `IndexError`), then GET the removal
endpoint keyed by the line item's `BasketItemId` with
`wizardItemDelete=False`.  Non-200 and parse failure print an error and
return with the basket unchanged; success replaces the basket and prints
a confirmation.  The printed lines are the fourth component. -/
def remove_item (s : Client) (basket_item_idx : Int)
    (o : HttpOutcome Basket) :
    Except PyError Unit × Client × List Request × List String :=
  match s.basket with
  | none => (Except.error PyError.AttributeError, s, [], [])
  | some bk =>
      match pyGet bk.Items basket_item_idx with
      | Except.error e => (Except.error e, s, [], [])
      | Except.ok line =>
          let req := Request.removeBasketItem line.BasketItemId false
          match o with
          | HttpOutcome.transportError =>
              (Except.error PyError.ConnectionError, s, [req], [])
          | HttpOutcome.response status body =>
              if status ≠ 200 then
                (Except.ok (), s, [req],
                  ["[Error] Connection failed to remove item."])
              else
                match body with
                | none =>
                    (Except.ok (), s, [req],
                      ["[Error] Error removing item. Invalid response."])
                | some b =>
                    (Except.ok (), { s with basket := some b }, [req],
                      ["[OK] Removed " ++ line.Title])

/-! Concrete fixtures used to exercise the operations on closed inputs. -/

def storeA : Store := { Id := 1, Name := "Westminster" }

def storeB : Store := { Id := 2, Name := "Pimlico" }

def emptyClient : Client :=
  { sess := [], stores := [], menu_version := none,
    menu := Menu.empty, basket := none }

def clientWithStores : Client := { emptyClient with stores := [storeA, storeB] }

def clientWithCookies : Client :=
  { emptyClient with sess := [("sessionid", "abc")] }

def pizzaSku : Sku := { ProductSkuId := 10, Ingredients := [1, 2] }

def pizzaProduct : Product :=
  { ProductId := 7, «Type» := "Pizza", Title := "Margherita",
    ProductSkus := [pizzaSku] }

def pizzaItem : Item := { prod := pizzaProduct, idx := 0 }

/-- The request `add_item` builds for `pizzaItem` at size index 0. -/
def pizzaRequest : Request :=
  Request.addPizza
    { stepId := 0, quantity := 1, sizeId := 0, productId := 7,
      ingredients := [1, 2, 42, 36], productIdHalfTwo := 0,
      ingredientsHalfTwo := [], recipeReferrer := 0 }

/-- `pizzaItem` as it looks after the in-place `ingredients += [42, 36]`. -/
def pizzaItemMutated : Item :=
  { prod := { ProductId := 7, «Type» := "Pizza", Title := "Margherita",
              ProductSkus := [{ ProductSkuId := 10,
                                Ingredients := [1, 2, 42, 36] }] },
    idx := 0 }

def sampleBasket : Basket :=
  { Items := [{ BasketItemId := 3, Title := "Margherita" }] }

def sideProduct : Product :=
  { ProductId := 9, «Type» := "Side", Title := "Wedges",
    ProductSkus := [{ ProductSkuId := 11, Ingredients := [] }] }

def pepperoniProduct : Product :=
  { ProductId := 8, «Type» := "Pizza", Title := "Pepperoni",
    ProductSkus := [] }

def sampleCatalog : List CategoryGroup :=
  [ { Subcategories :=
        [ { «Type» := "Pizza",
            Products := [pizzaProduct, pepperoniProduct] } ] },
    { Subcategories := [ { «Type» := "Side", Products := [sideProduct] } ] } ]

/-! Claim theorems. -/

/-- C1: when `menu_version` has not been set, `get_menu` returns the
"unavailable" signal `None`, only resets the cached menu, and issues no
HTTP request at all. -/
theorem get_menu_no_version_unavailable (s : Client) (store : Store)
    (o : HttpOutcome (List CategoryGroup)) :
    get_menu { s with menu_version := none } store o =
      (Except.ok none,
       { s with menu_version := none, menu := Menu.empty }, []) := rfl

/-- C9 (counterexample): a transport-level failure of the session-expire
notification makes `reset_session` raise, and the cookie jar is left
untouched (here non-empty) rather than replaced with a fresh empty one. -/
theorem reset_session_transport_fails :
    clientWithCookies.sess ≠ [] ∧
    (reset_session clientWithCookies HttpOutcome.transportError).1 =
      Except.error PyError.ConnectionError ∧
    (reset_session clientWithCookies HttpOutcome.transportError).2.1 =
      clientWithCookies :=
  ⟨by decide, rfl, rfl⟩

/-- C9 (amended): whenever the notification call yields any HTTP response
(status and body ignored), `reset_session` completes with no return value
and replaces the jar with a new empty one; but when the notification call
fails at transport level the exception propagates and the jar is not
replaced. -/
theorem reset_session_notification_behavior (s : Client) (st : Nat)
    (body : Option Unit) :
    (reset_session s (HttpOutcome.response st body) =
       (Except.ok (), { s with sess := [] }, [Request.sessionExpire])) ∧
    (reset_session s HttpOutcome.transportError =
       (Except.error PyError.ConnectionError, s, [Request.sessionExpire])) :=
  ⟨rfl, rfl⟩

/-- C10: every call to `get_menu` first replaces the cached menu with a
fresh empty `Menu`: the result never depends on the previously cached
menu, and on the fail-fast, transport-error and parse-error paths the
cached menu ends up empty. -/
theorem get_menu_always_clears_menu (s : Client) (store : Store)
    (o : HttpOutcome (List CategoryGroup)) (m : Menu) (st : Nat) :
    ((get_menu { s with menu_version := none } store o).2.1.menu =
       Menu.empty) ∧
    ((get_menu { s with menu_version := some "635", menu := m } store
        HttpOutcome.transportError).2.1.menu = Menu.empty) ∧
    ((get_menu { s with menu_version := some "635", menu := m } store
        (HttpOutcome.response st none)).2.1.menu = Menu.empty) ∧
    (get_menu { s with menu := m } store o = get_menu s store o) :=
  ⟨rfl, rfl, rfl, rfl⟩

/-- C7 (counterexample): an unparseable body in `search_stores` is not
caught: the raw parse exception (`ValueError`) propagates to the caller
instead of being converted to a boolean/result signal. -/
theorem search_stores_parse_error_raises :
    (search_stores emptyClient "SW1A 1AA"
        (HttpOutcome.response 200 none)).1 =
      Except.error PyError.ValueError := rfl

/-- C7 (amended): parse failures of the response body are caught and
converted to a uniform signal in `get_store_context`, `get_basket`,
`add_item` (boolean) and `remove_item` (printed message, basket kept);
but transport failures propagate as raw exceptions from every operation
that performs I/O, and parse failures in `search_stores` and `get_menu`,
as well as a missing `sessionContext`/`menuVersion` key in
`get_store_context`, also propagate. -/
theorem error_propagation_policy (s : Client) (epoch st : Nat)
    (term postcode : String) (line : BItem) (pid : Int) (title : String)
    (sku : Sku) (ix : Nat) (store : Store) :
    (get_store_context s epoch (HttpOutcome.response st none) =
       (Except.ok false, s, [Request.getStoreContext epoch])) ∧
    (get_basket s (HttpOutcome.response st none) =
       (Except.ok false, s, [Request.getBasket])) ∧
    ((add_item s
        { prod := { ProductId := pid, «Type» := "Pizza", Title := title,
                    ProductSkus := [sku] }, idx := ix } 0
        (HttpOutcome.response 200 none)).1 = Except.ok false) ∧
    (remove_item { s with basket := some { Items := [line] } } 0
        (HttpOutcome.response 200 none) =
       (Except.ok (), { s with basket := some { Items := [line] } },
        [Request.removeBasketItem line.BasketItemId false],
        ["[Error] Error removing item. Invalid response."])) ∧
    ((reset_session s HttpOutcome.transportError).1 =
       Except.error PyError.ConnectionError) ∧
    ((search_stores s term HttpOutcome.transportError).1 =
       Except.error PyError.ConnectionError) ∧
    ((get_cookie s store postcode HttpOutcome.transportError).1 =
       Except.error PyError.ConnectionError) ∧
    ((get_store_context s epoch HttpOutcome.transportError).1 =
       Except.error PyError.ConnectionError) ∧
    ((get_basket s HttpOutcome.transportError).1 =
       Except.error PyError.ConnectionError) ∧
    ((get_menu { s with menu_version := some "635" } store
        HttpOutcome.transportError).1 =
       Except.error PyError.ConnectionError) ∧
    ((remove_item { s with basket := some { Items := [line] } } 0
        HttpOutcome.transportError).1 =
       Except.error PyError.ConnectionError) ∧
    ((add_item s
        { prod := { ProductId := pid, «Type» := "Pizza", Title := title,
                    ProductSkus := [sku] }, idx := ix } 0
        HttpOutcome.transportError).1 =
       Except.error PyError.ConnectionError) ∧
    ((add_item s
        { prod := { ProductId := pid, «Type» := "Side", Title := title,
                    ProductSkus := [sku] }, idx := ix } 0
        HttpOutcome.transportError).1 =
       Except.error PyError.ConnectionError) ∧
    ((search_stores s term (HttpOutcome.response st none)).1 =
       Except.error PyError.ValueError) ∧
    ((get_menu { s with menu_version := some "635" } store
        (HttpOutcome.response st none)).1 =
       Except.error PyError.ValueError) ∧
    (get_store_context s epoch
        (HttpOutcome.response st (some { sessionContext := none })) =
       (Except.error PyError.KeyError, s, [Request.getStoreContext epoch])) ∧
    (get_store_context s epoch
        (HttpOutcome.response st
          (some { sessionContext := some { menuVersion := none } })) =
       (Except.error PyError.KeyError, s, [Request.getStoreContext epoch])) :=
  ⟨rfl, rfl, rfl, rfl, rfl, rfl, rfl, rfl, rfl, rfl, rfl, rfl, rfl, rfl,
   rfl, rfl, rfl⟩

/-- C5 (counterexample): `-1` is an integer outside `[0, len)`, yet
`select_store(-1)` on a two-store list does not fail with an out-of-range
error — it returns the last store (Python negative indexing). -/
theorem select_store_negative_index_succeeds :
    ¬ (0 ≤ (-1 : Int) ∧
        (-1 : Int) < (clientWithStores.stores.length : Int)) ∧
    (select_store clientWithStores (-1)).1 = Except.ok storeB :=
  ⟨by decide, rfl⟩

/-- C5 (amended): `select_store` performs no I/O; for `0 ≤ i < len` it
returns exactly the i-th cached store; for `i ≥ len` or `i < -len` it
fails with an out-of-range `IndexError`; and for `-len ≤ i < 0` it does
not fail but returns the `(len + i)`-th store, per Python negative
indexing. -/
theorem select_store_index_semantics (s : Client) (i : Int) :
    ((select_store s i).2 = []) ∧
    (∀ st, 0 ≤ i → s.stores.get? i.toNat = some st →
       (select_store s i).1 = Except.ok st) ∧
    ((i < -(s.stores.length : Int) ∨ (s.stores.length : Int) ≤ i) →
       (select_store s i).1 = Except.error PyError.IndexError) ∧
    (∀ st, -(s.stores.length : Int) ≤ i → i < 0 →
       s.stores.get? ((s.stores.length : Int) + i).toNat = some st →
       (select_store s i).1 = Except.ok st) := by
  refine ⟨rfl, ?_, ?_, ?_⟩
  · intro st h0 hget
    obtain ⟨hlt, hval⟩ := List.get?_eq_some.mp hget
    have hidx : pyIdx s.stores.length i = some i.toNat := by
      unfold pyIdx
      rw [if_pos ⟨h0, by omega⟩]
    simp only [select_store, pyGet, hidx]
    rw [dif_pos hlt]
    exact congrArg Except.ok hval
  · intro hout
    have hidx : pyIdx s.stores.length i = none := by
      unfold pyIdx
      rw [if_neg (by omega), if_neg (by omega)]
    simp only [select_store, pyGet, hidx]
  · intro st hge hneg hget
    obtain ⟨hlt, hval⟩ := List.get?_eq_some.mp hget
    have hidx : pyIdx s.stores.length i =
        some ((s.stores.length : Int) + i).toNat := by
      unfold pyIdx
      rw [if_neg (by omega), if_pos ⟨hge, hneg⟩]
    simp only [select_store, pyGet, hidx]
    rw [dif_pos hlt]
    exact congrArg Except.ok hval

/-- C5 (witness): on the concrete two-store list, index 0 returns the
first store. -/
theorem select_store_index_semantics_app :
    (select_store clientWithStores 0).1 = Except.ok storeA :=
  (select_store_index_semantics clientWithStores 0).2.1 storeA
    (by decide) rfl

/-- Helper: the POST phase of `add_item` issues exactly the prepared
request, whatever the outcome. -/
theorem add_item_post_requests (s : Client) (req : Request) (item2 : Item)
    (o : HttpOutcome Basket) :
    (add_item_post s req item2 o).2.2.1 = [req] := by
  cases o with
  | transportError => rfl
  | response st body =>
      by_cases h : st ≠ 200
      · simp [add_item_post, h]
      · cases body <;> simp [add_item_post, h]

/-- C4: once `add_item` has built a payload, a non-200 status or an
unparseable body yields `False` with the client state (in particular the
cached basket) unchanged; the basket is replaced exactly on HTTP 200 with
parseable JSON, which yields `True`. -/
theorem add_item_failure_preserves_basket (s : Client) (item : Item)
    (size_idx : Int) (req : Request) (item2 : Item)
    (hprep : add_item_prepare item size_idx = Except.ok (req, item2)) :
    (∀ st body, st ≠ 200 ∨ body = none →
       (add_item s item size_idx (HttpOutcome.response st body)).1 =
         Except.ok false ∧
       (add_item s item size_idx (HttpOutcome.response st body)).2.1 = s) ∧
    ((add_item s item size_idx HttpOutcome.transportError).2.1 = s) ∧
    (∀ b, add_item s item size_idx (HttpOutcome.response 200 (some b)) =
       (Except.ok true, { s with basket := some b }, [req], item2)) := by
  simp only [add_item, hprep]
  refine ⟨?_, rfl, ?_⟩
  · intro st body h
    rcases h with h | h
    · constructor <;> simp [add_item_post, h]
    · subst h
      by_cases hst : st ≠ 200 <;> constructor <;> simp [add_item_post, hst]
  · intro b
    simp [add_item_post]

/-- C4 (witness): a 500 response on adding the concrete pizza returns
`False` and leaves the concrete client (with its basket) unchanged. -/
theorem add_item_failure_preserves_basket_app :
    (add_item emptyClient pizzaItem 0 (HttpOutcome.response 500 none)).1 =
      Except.ok false ∧
    (add_item emptyClient pizzaItem 0 (HttpOutcome.response 500 none)).2.1 =
      emptyClient := by
  have h := add_item_failure_preserves_basket emptyClient pizzaItem 0
    pizzaRequest pizzaItemMutated rfl
  exact h.1 500 none (Or.inl (by decide))

/-- C3: for a Pizza and a valid size index, `add_item` posts an
ingredient list equal to the selected size variant's own `Ingredients`
with the fixed ids 42 and 36 appended at the end, inside the one request
it issues. -/
theorem add_item_pizza_posts_base_ingredients (s : Client) (item : Item)
    (size_idx : Int) (o : HttpOutcome Basket) (j : Nat) (sku : Sku)
    (htype : item.type = "Pizza")
    (hj : pyIdx item.ProductSkus.length size_idx = some j)
    (hsku : item.ProductSkus.get? j = some sku) :
    (add_item s item size_idx o).2.2.1 =
      [Request.addPizza
        { stepId := 0, quantity := 1, sizeId := size_idx,
          productId := item.ProductId,
          ingredients := sku.Ingredients ++ [42, 36],
          productIdHalfTwo := 0, ingredientsHalfTwo := [],
          recipeReferrer := 0 }] := by
  obtain ⟨hlt, hval⟩ := List.get?_eq_some.mp hsku
  have hbeq : (item.type == "Pizza") = true := by rw [htype]; rfl
  simp only [add_item, add_item_prepare, hbeq, if_true, hj]
  rw [dif_pos hlt]
  rw [add_item_post_requests, hval]

/-- C3 (witness): adding the concrete pizza at size 0 issues exactly the
expected `AddPizza` request, with ingredients `[1, 2, 42, 36]`. -/
theorem add_item_pizza_posts_base_ingredients_app :
    (add_item emptyClient pizzaItem 0 HttpOutcome.transportError).2.2.1 =
      [pizzaRequest] := by
  have h := add_item_pizza_posts_base_ingredients emptyClient pizzaItem 0
    HttpOutcome.transportError 0 pizzaSku rfl rfl rfl
  exact h

/-- C6 (code slip): `ingredients += [42, 36]` extends the size variant's
own list in place, so after `add_item` the caller's Item has gained the
two base ingredient ids — its fields are not the same as before the
call. -/
theorem add_item_pizza_mutates_caller_item :
    (add_item emptyClient pizzaItem 0
        (HttpOutcome.response 200 (some sampleBasket))).2.2.2 =
      pizzaItemMutated ∧
    pizzaItemMutated ≠ pizzaItem :=
  ⟨rfl, by decide⟩

/-- C8: `remove_item(i)` keys the removal request by the line item's own
`BasketItemId` with `wizardItemDelete=false`; on HTTP 200 with parseable
JSON it replaces the cached basket with the server's state, and on
transport failure, non-200 status or parse failure it leaves the cached
basket (indeed the whole client state) unchanged. -/
theorem remove_item_spec (s : Client) (bk : Basket) (i : Int) (j : Nat)
    (line : BItem) (hbk : s.basket = some bk)
    (hj : pyIdx bk.Items.length i = some j)
    (hline : bk.Items.get? j = some line) :
    (∀ o, (remove_item s i o).2.2.1 =
       [Request.removeBasketItem line.BasketItemId false]) ∧
    (∀ b, remove_item s i (HttpOutcome.response 200 (some b)) =
       (Except.ok (), { s with basket := some b },
        [Request.removeBasketItem line.BasketItemId false],
        ["[OK] Removed " ++ line.Title])) ∧
    ((remove_item s i HttpOutcome.transportError).2.1 = s) ∧
    (∀ st body, st ≠ 200 ∨ body = none →
       (remove_item s i (HttpOutcome.response st body)).2.1 = s) := by
  obtain ⟨hlt, hval⟩ := List.get?_eq_some.mp hline
  have hget : pyGet bk.Items i = Except.ok line := by
    simp only [pyGet, hj]
    rw [dif_pos hlt]
    exact congrArg Except.ok hval
  refine ⟨?_, ?_, ?_, ?_⟩
  · intro o
    cases o with
    | transportError => simp [remove_item, hbk, hget]
    | response st body =>
        by_cases hst : st ≠ 200
        · simp [remove_item, hbk, hget, hst]
        · cases body <;> simp [remove_item, hbk, hget, hst]
  · intro b
    simp [remove_item, hbk, hget]
  · simp [remove_item, hbk, hget]
  · intro st body h
    rcases h with h | h
    · simp [remove_item, hbk, hget, h]
    · subst h
      by_cases hst : st ≠ 200 <;> simp [remove_item, hbk, hget, hst]

/-- C8 (witness): removing position 0 from the concrete basket issues the
removal keyed by that line's `BasketItemId` 3 (not by position) with the
wizard flag false. -/
theorem remove_item_spec_app :
    (remove_item { emptyClient with basket := some sampleBasket } 0
        HttpOutcome.transportError).2.2.1 =
      [Request.removeBasketItem 3 false] := by
  have h := remove_item_spec { emptyClient with basket := some sampleBasket }
    sampleBasket 0 0 { BasketItemId := 3, Title := "Margherita" } rfl rfl rfl
  exact h.1 HttpOutcome.transportError

/-! Lemmas about `Menu.addItem` as an association-list update, leading to
the characterization of the menu `get_menu` builds. -/

theorem dictLookup_map_append_ne (l : List (String × List Item))
    (c c' : String) (it : Item) (h : ¬ c' = c) :
    dictLookup (l.map (fun q =>
        if q.1 = c then (q.1, q.2 ++ [it]) else q)) c' =
      dictLookup l c' := by
  induction l with
  | nil => rfl
  | cons a t ih =>
      obtain ⟨k, v⟩ := a
      simp only [List.map_cons]
      by_cases hk : k = c
      · rw [if_pos hk]
        have hk' : ¬ k = c' := fun hh => h (hh.symm.trans hk)
        simp only [dictLookup]
        rw [if_neg hk', if_neg hk']
        exact ih
      · rw [if_neg hk]
        simp only [dictLookup]
        by_cases hk' : k = c'
        · rw [if_pos hk', if_pos hk']
        · rw [if_neg hk', if_neg hk']
          exact ih

theorem dictLookup_map_append_eq (l : List (String × List Item))
    (c : String) (it : Item) :
    dictLookup (l.map (fun q =>
        if q.1 = c then (q.1, q.2 ++ [it]) else q)) c =
      (dictLookup l c).map (fun v => v ++ [it]) := by
  induction l with
  | nil => rfl
  | cons a t ih =>
      obtain ⟨k, v⟩ := a
      simp only [List.map_cons]
      by_cases hk : k = c
      · rw [if_pos hk]
        simp only [dictLookup]
        rw [if_pos hk, if_pos hk]
        rfl
      · rw [if_neg hk]
        simp only [dictLookup]
        rw [if_neg hk, if_neg hk]
        exact ih

theorem dictLookup_eq_none_of_any_false (l : List (String × List Item))
    (c : String) (h : l.any (fun q => decide (q.1 = c)) = false) :
    dictLookup l c = none := by
  induction l with
  | nil => rfl
  | cons a t ih =>
      obtain ⟨k, v⟩ := a
      simp only [List.any_cons, Bool.or_eq_false_iff, decide_eq_false_iff_not]
        at h
      simp [dictLookup, h.1, ih h.2]

theorem dictLookup_isSome_of_any (l : List (String × List Item)) (c : String)
    (h : l.any (fun q => decide (q.1 = c)) = true) :
    ∃ v, dictLookup l c = some v := by
  induction l with
  | nil => simp at h
  | cons a t ih =>
      obtain ⟨k, v⟩ := a
      by_cases hk : k = c
      · exact ⟨v, by simp [dictLookup, hk]⟩
      · simp only [List.any_cons, Bool.or_eq_true, decide_eq_true_eq] at h
        rcases h with h | h
        · exact absurd h hk
        · obtain ⟨w, hw⟩ := ih h
          exact ⟨w, by simp [dictLookup, hk, hw]⟩

theorem dictLookup_append_singleton (l : List (String × List Item))
    (c c' : String) (x : List Item) :
    dictLookup (l ++ [(c, x)]) c' =
      match dictLookup l c' with
      | some v => some v
      | none => if c = c' then some x else none := by
  induction l with
  | nil => rfl
  | cons a t ih =>
      obtain ⟨k, v⟩ := a
      by_cases hk : k = c'
      · simp [dictLookup, hk]
      · simp [dictLookup, hk, ih]

/-- One `addItem` appends the item to the category it targets and leaves
every other category's list unchanged. -/
theorem addItem_itemsInCategory (m : Menu) (c c' : String) (it : Item) :
    (m.addItem c it).itemsInCategory c' =
      m.itemsInCategory c' ++ (if c = c' then [it] else []) := by
  unfold Menu.addItem Menu.itemsInCategory
  cases hany : m.items.any (fun q => decide (q.1 = c)) with
  | true =>
      rw [if_pos rfl]
      by_cases hcc : c = c'
      · subst hcc
        obtain ⟨v, hv⟩ := dictLookup_isSome_of_any m.items c hany
        simp only [dictLookup_map_append_eq, hv, Option.map_some']
        simp
      · rw [show (⟨m.items.map fun q =>
            if q.1 = c then (q.1, q.2 ++ [it]) else q⟩ : Menu).items =
            m.items.map (fun q => if q.1 = c then (q.1, q.2 ++ [it]) else q)
            from rfl]
        rw [dictLookup_map_append_ne m.items c c' it (fun hh => hcc hh.symm)]
        cases dictLookup m.items c' <;> simp [hcc]
  | false =>
      rw [if_neg Bool.false_ne_true]
      have hnone := dictLookup_eq_none_of_any_false m.items c hany
      rw [show (⟨m.items ++ [(c, [it])]⟩ : Menu).items =
            m.items ++ [(c, [it])] from rfl]
      rw [dictLookup_append_singleton]
      by_cases hcc : c = c'
      · subst hcc
        rw [hnone]
        simp
      · cases dictLookup m.items c' <;> simp [hcc]

/-- The nested loop of `get_menu` populates each category with exactly
the flatten-order items whose subcategory `Type` is that category, in
response order, with their running indices. -/
theorem get_menu_loop_itemsInCategory (pairs : List (String × Product)) :
    ∀ (m : Menu) (idx : Nat) (c : String),
    ((get_menu_loop m idx pairs).1).itemsInCategory c =
      m.itemsInCategory c ++
        ((enumItemsFrom idx pairs).filter
          (fun q => decide (q.1 = c))).map Prod.snd := by
  induction pairs with
  | nil => intro m idx c; simp [get_menu_loop, enumItemsFrom]
  | cons hd t ih =>
      intro m idx c
      obtain ⟨c0, p⟩ := hd
      simp only [get_menu_loop, enumItemsFrom]
      rw [ih, addItem_itemsInCategory]
      by_cases h : c0 = c
      · subst h
        simp [List.filter_cons, List.append_assoc]
      · simp [List.filter_cons, h]

/-- The indices assigned along the flatten order starting at `idx` are
exactly `idx, idx+1, ...`. -/
theorem enumItemsFrom_map_idx (pairs : List (String × Product)) :
    ∀ i, (enumItemsFrom i pairs).map (fun q => q.2.idx) =
      List.range' i pairs.length := by
  induction pairs with
  | nil => intro i; rfl
  | cons hd t ih =>
      intro i
      obtain ⟨c, p⟩ := hd
      simp [enumItemsFrom, ih, List.range'_succ]

theorem enumItemsFrom_idx_ge (pairs : List (String × Product)) :
    ∀ i q, q ∈ enumItemsFrom i pairs → i ≤ q.2.idx := by
  induction pairs with
  | nil => intro i q hq; simp [enumItemsFrom] at hq
  | cons hd t ih =>
      intro i q hq
      obtain ⟨c, p⟩ := hd
      simp only [enumItemsFrom, List.mem_cons] at hq
      rcases hq with hq | hq
      · subst hq; exact Nat.le_refl i
      · exact Nat.le_of_succ_le (ih (i + 1) q hq)

/-- Within one flatten-order enumeration the assigned index determines
the entry: indices are unique. -/
theorem enumItemsFrom_idx_inj (pairs : List (String × Product)) :
    ∀ i q q', q ∈ enumItemsFrom i pairs → q' ∈ enumItemsFrom i pairs →
      q.2.idx = q'.2.idx → q = q' := by
  induction pairs with
  | nil => intro i q q' hq; simp [enumItemsFrom] at hq
  | cons hd t ih =>
      intro i q q' hq hq' heq
      obtain ⟨c, p⟩ := hd
      simp only [enumItemsFrom, List.mem_cons] at hq hq'
      rcases hq with hq | hq <;> rcases hq' with hq' | hq'
      · rw [hq, hq']
      · exfalso
        have := enumItemsFrom_idx_ge t (i + 1) q' hq'
        rw [hq] at heq
        simp at heq
        omega
      · exfalso
        have := enumItemsFrom_idx_ge t (i + 1) q hq
        rw [hq'] at heq
        simp at heq
        omega
      · exact ih (i + 1) q q' hq hq' heq

/-- C2: after a successful `get_menu`, the menu's categories hold exactly
the flatten-order (category group, then subcategory, then product, in
response order) items whose subcategory `Type` matches, the indices
assigned along the flatten order are `0, 1, 2, ...` — zero-based and
strictly increasing — and an index occurs at most once across all
categories of the menu. -/
theorem get_menu_assigns_flatten_indices (s : Client) (store : Store)
    (v : String) (hv : ¬ v = "") (st : Nat) (groups : List CategoryGroup)
    (menu : Menu)
    (hmenu : menu = (get_menu { s with menu_version := some v } store
        (HttpOutcome.response st (some groups))).2.1.menu) :
    (get_menu { s with menu_version := some v } store
        (HttpOutcome.response st (some groups))).1 =
      Except.ok (some menu) ∧
    (∀ c, menu.itemsInCategory c =
       ((enumItemsFrom 0 (flattenCatalog groups)).filter
         (fun q => decide (q.1 = c))).map Prod.snd) ∧
    ((enumItemsFrom 0 (flattenCatalog groups)).map (fun q => q.2.idx) =
       List.range (flattenCatalog groups).length) ∧
    List.Pairwise (· < ·)
      ((enumItemsFrom 0 (flattenCatalog groups)).map (fun q => q.2.idx)) ∧
    (∀ c₁ c₂ it₁ it₂, it₁ ∈ menu.itemsInCategory c₁ →
       it₂ ∈ menu.itemsInCategory c₂ → it₁.idx = it₂.idx →
       c₁ = c₂ ∧ it₁ = it₂) := by
  have hfalsy : (v == "") = false := by
    rw [beq_eq_false_iff_ne]
    exact hv
  have h1 : (get_menu { s with menu_version := some v } store
      (HttpOutcome.response st (some groups))).1 =
      Except.ok (some ((get_menu_loop Menu.empty 0
        (flattenCatalog groups)).1)) := by
    simp [get_menu, menuVersionFalsy, hfalsy]
  have h2 : (get_menu { s with menu_version := some v } store
      (HttpOutcome.response st (some groups))).2.1.menu =
      (get_menu_loop Menu.empty 0 (flattenCatalog groups)).1 := by
    simp [get_menu, menuVersionFalsy, hfalsy]
  have hmenu' : menu =
      (get_menu_loop Menu.empty 0 (flattenCatalog groups)).1 :=
    hmenu.trans h2
  have hchar : ∀ c, menu.itemsInCategory c =
      ((enumItemsFrom 0 (flattenCatalog groups)).filter
        (fun q => decide (q.1 = c))).map Prod.snd := by
    intro c
    rw [hmenu', get_menu_loop_itemsInCategory]
    rfl
  have hidx : (enumItemsFrom 0 (flattenCatalog groups)).map
      (fun q => q.2.idx) = List.range (flattenCatalog groups).length := by
    rw [enumItemsFrom_map_idx]
    exact (List.range_eq_range' (flattenCatalog groups).length).symm
  refine ⟨?_, hchar, hidx, ?_, ?_⟩
  · rw [h1, hmenu']
  · rw [hidx]
    exact List.pairwise_lt_range _
  · intro c₁ c₂ it₁ it₂ h₁ h₂ hidxeq
    rw [hchar c₁] at h₁
    rw [hchar c₂] at h₂
    obtain ⟨q₁, hq₁f, hq₁⟩ := List.mem_map.mp h₁
    obtain ⟨q₂, hq₂f, hq₂⟩ := List.mem_map.mp h₂
    obtain ⟨hq₁m, hq₁c⟩ := List.mem_filter.mp hq₁f
    obtain ⟨hq₂m, hq₂c⟩ := List.mem_filter.mp hq₂f
    have hc₁ : q₁.1 = c₁ := of_decide_eq_true hq₁c
    have hc₂ : q₂.1 = c₂ := of_decide_eq_true hq₂c
    have hqq : q₁ = q₂ := by
      apply enumItemsFrom_idx_inj (flattenCatalog groups) 0 q₁ q₂ hq₁m hq₂m
      rw [hq₁, hq₂, hidxeq]
    constructor
    · rw [← hc₁, ← hc₂, hqq]
    · rw [← hq₁, ← hq₂, hqq]

/-- C2 (witness): on the concrete two-group catalog, the built menu holds
the two pizzas under "Pizza" with indices 0 and 1 and the side under
"Side" with index 2 — the flatten order across category groups. -/
theorem get_menu_assigns_flatten_indices_app :
    ((get_menu { emptyClient with menu_version := some "635" } storeA
        (HttpOutcome.response 200 (some sampleCatalog))).2.1.menu).itemsInCategory
        "Pizza" =
      [{ prod := pizzaProduct, idx := 0 }, { prod := pepperoniProduct, idx := 1 }] ∧
    ((get_menu { emptyClient with menu_version := some "635" } storeA
        (HttpOutcome.response 200 (some sampleCatalog))).2.1.menu).itemsInCategory
        "Side" =
      [{ prod := sideProduct, idx := 2 }] := by
  have h := get_menu_assigns_flatten_indices emptyClient storeA "635"
    (by decide) 200 sampleCatalog _ rfl
  constructor
  · rw [h.2.1 "Pizza"]
    rfl
  · rw [h.2.1 "Side"]
    rfl

end Dominos
